import Mathlib

/-!
Shallow embedding of `clock.py` (a Sense-HAT clock renderer) and proofs of
the specification's claims about it.

Numeric model: the Python floats of this program are embedded as exact
rationals (ℚ); `int(...)` is truncation toward zero and `%` on floats is
floor-mod.  At every value a claim evaluates, the float computation and the
rational one agree.
-/

namespace Clock

/-- Python `int(q)`: truncation toward zero. -/
def pyInt (q : ℚ) : ℤ :=
  if q < 0 then -⌊-q⌋ else ⌊q⌋

/-- Python float modulo `a % b` (floor-mod): `a - b * ⌊a / b⌋`. -/
def pyFMod (a b : ℚ) : ℚ :=
  a - b * ⌊a / b⌋

/-- Embeds `clamp(x, lower, upper)` from clock.py. -/
def clamp (x lower upper : ℚ) : ℚ :=
  max lower (min x upper)

/-- Embeds `col(r, g, b, l)` from clock.py: colour triple in [0,1] to a 3-byte triplet.
The Python default argument `l=1.0` is passed explicitly at each call site. -/
def col (r g b l : ℚ) : List ℤ :=
  [pyInt (l * r * 255), pyInt (l * g * 255), pyInt (l * b * 255)]

/-- Embeds `col(*chs)` applied to a 3-element channel list (Python argument unpacking). -/
def colL (chs : List ℚ) (l : ℚ) : List ℤ :=
  col (chs.getD 0 0) (chs.getD 1 0) (chs.getD 2 0) l

/-- Embeds `dim(p, l)` from clock.py: `[int(p[0]*l), int(p[1]*l), int(p[2]*l)]`. -/
def dim (p : List ℤ) (l : ℚ) : List ℤ :=
  [pyInt ((p.getD 0 0 : ℚ) * l), pyInt ((p.getD 1 0 : ℚ) * l), pyInt ((p.getD 2 0 : ℚ) * l)]

/-- Embeds `time_letter(hour)` from clock.py: `'c'` at 12, else `hex(hour % 12)[2:]`
(`Nat.toDigits 16` produces the same lowercase hex digits as Python `hex`). -/
def time_letter (hour : ℕ) : String :=
  if hour = 12 then "c" else (Nat.toDigits 16 (hour % 12)).asString

/-- Embeds `minutes_brightness(mins, x)` from clock.py.  Here `mins_x % 1` is Python float
modulo, i.e. `pyFMod mins_x 1`. -/
def minutes_brightness (mins x : ℚ) : ℚ :=
  let mins_x := (mins / 60) * 8
  let x_diff := mins_x - x
  if x_diff < 0 then 0
  else if x_diff < 1 then pyFMod mins_x 1
  else 1

/-- Embeds `time_of_day_color(hours, mins)` from clock.py: binds four unused ramp
colours and returns the constant `[10, 0, 100]`. -/
def time_of_day_color (hours : String) (mins : ℚ) : List ℤ :=
  let midnight : List ℤ := [0, 0, 128]
  let dawn : List ℤ := [200, 150, 70]
  let midday : List ℤ := [40, 60, 60]
  let dusk : List ℤ := [250, 150, 50]
  [10, 0, 100]

/-- Embeds `bg_if_blank(col, bg_col)` from clock.py. -/
def bg_if_blank (c bg_col : List ℤ) : List ℤ :=
  if c ≠ [0, 0, 0] then c else bg_col

/-- Embeds `letter_pixel_col(x, y, p, hours, mins)` from clock.py. -/
def letter_pixel_col (x y : ℕ) (p : List ℤ) (hours : String) (mins : ℚ) : List ℤ :=
  bg_if_blank p (dim (time_of_day_color hours mins) (minutes_brightness mins (x : ℚ)))

/-- Half-intensity letter pixels from the main loop:
`[[128*pixel]*3 for row in letter for pixel in row]`. -/
def letter_pixels (letter : List (List ℤ)) : List (List ℤ) :=
  letter.flatMap (fun row => row.map (fun pixel => List.replicate 3 (128 * pixel)))

/-- The frame assembled by the main loop:
`[letter_pixel_col(i%8, i//8, p, hours, mins) for i, p in enumerate(letter_pixels)]`. -/
def frame_pixels (letter : List (List ℤ)) (hours : String) (mins : ℚ) : List (List ℤ) :=
  (letter_pixels letter).enum.map (fun ip => letter_pixel_col (ip.1 % 8) (ip.1 / 8) ip.2 hours mins)

/-- The heads of a list of lists, or `none` when any list is empty (the
check Python `zip` performs before emitting each tuple). -/
def heads? {α : Type _} : List (List α) → Option (List α)
  | [] => some []
  | [] :: _ => none
  | (a :: _) :: rest =>
    match heads? rest with
    | none => none
    | some hs => some (a :: hs)

/-- One step of Python `zip(*rows)`: emits the heads of `first :: rest` while
every list still has an element, truncating at the shortest list. -/
def zipStarGo {α : Type _} : List α → List (List α) → List (List α)
  | [], _ => []
  | a :: as, rest =>
    match heads? rest with
    | none => []
    | some hs => (a :: hs) :: zipStarGo as (rest.map List.tail)

/-- Python `zip(*g)` on a list of lists (`zip()` of no iterables is empty). -/
def zipStar {α : Type _} : List (List α) → List (List α)
  | [] => []
  | l :: ls => zipStarGo l ls

/-- Embeds `quarter_rotation(g)` from clock.py:
`[list(col) for col in zip(*[reversed(row) for row in g])]`. -/
def quarter_rotation {α : Type _} (g : List (List α)) : List (List α) :=
  zipStar (g.map List.reverse)

/-- The recursion of `rotate`: apply `quarter_rotation` the given number of
times (the source decrements an already-normalized count). -/
def rotateAux {α : Type _} : ℕ → List (List α) → List (List α)
  | 0, g => g
  | n + 1, g => rotateAux n (quarter_rotation g)

/-- Embeds `rotate(grid, quarter_turns)` from clock.py: `quarter_turns %= 4`
(Python `%` on ints is `Int.emod`: nonnegative for positive modulus), then
recurse down to the `quarter_turns == 0` base case, which returns the grid's
content unchanged. -/
def rotate {α : Type _} (grid : List (List α)) (quarter_turns : ℤ) : List (List α) :=
  rotateAux (quarter_turns % 4).toNat grid

/-- The row padding of `load_letters`: `[0] + row + [0, 0]`. -/
def pad_row (row : List ℤ) : List ℤ :=
  [0] ++ row ++ [0, 0]

/-- Embeds `load_letters()` from clock.py, with the file open and `json.load`
abstracted into the argument: `none` models a missing or unparsable resource
(Python raises out of the function there), `some d` the parsed dictionary.
The body pads every row of every glyph and performs no other validation. -/
def load_letters (resource : Option (List (String × List (List ℤ)))) :
    Option (List (String × List (List ℤ))) :=
  match resource with
  | none => none
  | some letters_dict => some (letters_dict.map (fun p => (p.1, p.2.map pad_row)))

/-- A device operation issued by `clear_and_exit`. -/
inductive DeviceOp where
  | set_pixels (frame : List (List ℤ))
  | clear

/-- The `sadface` glyph of `clear_and_exit`. -/
def sadface : List (List ℤ) :=
  [[0, 0, 0, 0, 0, 0, 0, 0],
   [1, 0, 1, 0, 0, 1, 0, 1],
   [0, 1, 0, 0, 0, 0, 1, 0],
   [1, 0, 1, 0, 0, 1, 0, 1],
   [0, 0, 0, 0, 0, 0, 0, 0],
   [0, 0, 1, 1, 1, 1, 0, 0],
   [0, 1, 0, 0, 0, 0, 1, 0],
   [1, 0, 0, 0, 0, 0, 0, 1]]

/-- Embeds `initial = 0.5` in `clear_and_exit`. -/
def initial : ℚ := 0.5

/-- Embeds `speed = 2` in `clear_and_exit`. -/
def speed : ℚ := 2

/-- Embeds `increments = [speed*initial/2000, speed*initial/1000, speed*initial/1500]`. -/
def increments : List ℚ :=
  [speed * initial / 2000, speed * initial / 1000, speed * initial / 1500]

/-- Embeds `min_increment = min(increments)` (`min` of a nonempty list; the default
of `getD` is never reached). -/
def min_increment : ℚ :=
  increments.min?.getD 0

/-- Embeds `power_off_time = int((initial / min_increment) / speed)`. -/
def power_off_time : ℤ :=
  pyInt ((initial / min_increment) / speed)

/-- One fade frame of `clear_and_exit`:
`[bg_if_blank(col(*[p*initial]*3), rgb_pix) for row in sadface for p in row]`
with `rgb_pix = col(*[pow(clamp(c, 0, 1), 2) for c in rgb])`. -/
def fade_pixels (rgb : List ℚ) : List (List ℤ) :=
  let rgb_pix := colL (rgb.map (fun c => (clamp c 0 1) ^ 2)) 1
  sadface.flatMap (fun row =>
    row.map (fun p => bg_if_blank (colL (List.replicate 3 ((p : ℚ) * initial)) 1) rgb_pix))

/-- The per-frame update `rgb = [c - i for c, i in zip(rgb, increments)]`. -/
def fade_step (rgb : List ℚ) : List ℚ :=
  (rgb.zip increments).map (fun ci => ci.1 - ci.2)

/-- The `set_pixels` calls of the fade loop, one per frame. -/
def fade_trace : ℕ → List ℚ → List DeviceOp
  | 0, _ => []
  | n + 1, rgb => DeviceOp.set_pixels (fade_pixels rgb) :: fade_trace n (fade_step rgb)

/-- The held fully-dimmed frame `[col(*[p*initial]*3) for row in sadface for p in row]`. -/
def final_frame : List (List ℤ) :=
  sadface.flatMap (fun row => row.map (fun p => colL (List.replicate 3 ((p : ℚ) * initial)) 1))

/-- Embeds `clear_and_exit(sense)` as the sequence of device operations it issues
plus the process exit code.  The two `time.sleep(0.5)` calls touch no device
state and leave no trace entry; `sys.exit(0)` is the exit code 0. -/
def clear_and_exit : List DeviceOp × ℤ :=
  (fade_trace power_off_time.toNat (List.replicate 3 initial) ++
    [DeviceOp.set_pixels final_frame, DeviceOp.clear], 0)

end Clock

namespace Clock

/- ### Helper lemmas (shared; not claim theorems) -/

theorem list_len8 {α : Type _} (l : List α) (h : l.length = 8) :
    ∃ a₀ a₁ a₂ a₃ a₄ a₅ a₆ a₇, l = [a₀, a₁, a₂, a₃, a₄, a₅, a₆, a₇] := by
  rcases l with - | ⟨a0, l⟩; · simp at h
  rcases l with - | ⟨a1, l⟩; · simp at h
  rcases l with - | ⟨a2, l⟩; · simp at h
  rcases l with - | ⟨a3, l⟩; · simp at h
  rcases l with - | ⟨a4, l⟩; · simp at h
  rcases l with - | ⟨a5, l⟩; · simp at h
  rcases l with - | ⟨a6, l⟩; · simp at h
  rcases l with - | ⟨a7, l⟩; · simp at h
  rcases l with - | ⟨a8, l⟩
  · exact ⟨a0, a1, a2, a3, a4, a5, a6, a7, rfl⟩
  · simp at h

theorem qr_eval {α : Type _}
    (a0 a1 a2 a3 a4 a5 a6 a7 b0 b1 b2 b3 b4 b5 b6 b7
     c0 c1 c2 c3 c4 c5 c6 c7 d0 d1 d2 d3 d4 d5 d6 d7
     e0 e1 e2 e3 e4 e5 e6 e7 f0 f1 f2 f3 f4 f5 f6 f7
     g0 g1 g2 g3 g4 g5 g6 g7 i0 i1 i2 i3 i4 i5 i6 i7 : α) :
    quarter_rotation
      [[a0, a1, a2, a3, a4, a5, a6, a7],
       [b0, b1, b2, b3, b4, b5, b6, b7],
       [c0, c1, c2, c3, c4, c5, c6, c7],
       [d0, d1, d2, d3, d4, d5, d6, d7],
       [e0, e1, e2, e3, e4, e5, e6, e7],
       [f0, f1, f2, f3, f4, f5, f6, f7],
       [g0, g1, g2, g3, g4, g5, g6, g7],
       [i0, i1, i2, i3, i4, i5, i6, i7]] =
      [[a7, b7, c7, d7, e7, f7, g7, i7],
       [a6, b6, c6, d6, e6, f6, g6, i6],
       [a5, b5, c5, d5, e5, f5, g5, i5],
       [a4, b4, c4, d4, e4, f4, g4, i4],
       [a3, b3, c3, d3, e3, f3, g3, i3],
       [a2, b2, c2, d2, e2, f2, g2, i2],
       [a1, b1, c1, d1, e1, f1, g1, i1],
       [a0, b0, c0, d0, e0, f0, g0, i0]] := rfl

theorem quarter_rotation_four {α : Type _} (g : List (List α)) (h8 : g.length = 8)
    (hrow : ∀ r ∈ g, r.length = 8) :
    quarter_rotation (quarter_rotation (quarter_rotation (quarter_rotation g))) = g := by
  obtain ⟨r0, r1, r2, r3, r4, r5, r6, r7, rfl⟩ := list_len8 g h8
  obtain ⟨a0, a1, a2, a3, a4, a5, a6, a7, rfl⟩ := list_len8 r0 (hrow r0 (by simp))
  obtain ⟨b0, b1, b2, b3, b4, b5, b6, b7, rfl⟩ := list_len8 r1 (hrow r1 (by simp))
  obtain ⟨c0, c1, c2, c3, c4, c5, c6, c7, rfl⟩ := list_len8 r2 (hrow r2 (by simp))
  obtain ⟨d0, d1, d2, d3, d4, d5, d6, d7, rfl⟩ := list_len8 r3 (hrow r3 (by simp))
  obtain ⟨e0, e1, e2, e3, e4, e5, e6, e7, rfl⟩ := list_len8 r4 (hrow r4 (by simp))
  obtain ⟨f0, f1, f2, f3, f4, f5, f6, f7, rfl⟩ := list_len8 r5 (hrow r5 (by simp))
  obtain ⟨g0, g1, g2, g3, g4, g5, g6, g7, rfl⟩ := list_len8 r6 (hrow r6 (by simp))
  obtain ⟨i0, i1, i2, i3, i4, i5, i6, i7, rfl⟩ := list_len8 r7 (hrow r7 (by simp))
  rw [qr_eval, qr_eval, qr_eval, qr_eval]

theorem pyInt_of_nonneg {q : ℚ} (h : 0 ≤ q) : pyInt q = ⌊q⌋ := by
  simp [pyInt, not_lt.mpr h]

theorem pyFMod_one (q : ℚ) : pyFMod q 1 = q - ⌊q⌋ := by
  simp [pyFMod]

theorem minutes_brightness_nonneg (mins x : ℚ) : 0 ≤ minutes_brightness mins x := by
  unfold minutes_brightness
  dsimp only
  split_ifs with h1 h2
  · exact le_refl 0
  · rw [pyFMod_one]
    have := Int.floor_le ((mins / 60) * 8)
    linarith
  · exact zero_le_one

theorem minutes_brightness_le_one (mins x : ℚ) : minutes_brightness mins x ≤ 1 := by
  unfold minutes_brightness
  dsimp only
  split_ifs with h1 h2
  · exact zero_le_one
  · rw [pyFMod_one]
    have := Int.lt_floor_add_one ((mins / 60) * 8)
    linarith
  · exact le_refl 1

theorem time_of_day_color_eq (hours : String) (mins : ℚ) :
    time_of_day_color hours mins = [10, 0, 100] := rfl

theorem dim_eval (a b c : ℤ) (l : ℚ) (hl : 0 ≤ l)
    (ha : 0 ≤ a) (hb : 0 ≤ b) (hc : 0 ≤ c) :
    dim [a, b, c] l = [⌊(a : ℚ) * l⌋, ⌊(b : ℚ) * l⌋, ⌊(c : ℚ) * l⌋] := by
  unfold dim
  simp only [List.getD_cons_zero, List.getD_cons_succ]
  rw [pyInt_of_nonneg (mul_nonneg (by exact_mod_cast ha) hl),
      pyInt_of_nonneg (mul_nonneg (by exact_mod_cast hb) hl),
      pyInt_of_nonneg (mul_nonneg (by exact_mod_cast hc) hl)]

theorem floor_channel_bounds (c b : ℚ) (hc0 : 0 ≤ c) (hc : c ≤ 255)
    (hb0 : 0 ≤ b) (hb1 : b ≤ 1) : 0 ≤ ⌊c * b⌋ ∧ ⌊c * b⌋ ≤ 255 := by
  constructor
  · exact Int.floor_nonneg.mpr (mul_nonneg hc0 hb0)
  · have h1 : c * b ≤ 255 := by nlinarith
    calc ⌊c * b⌋ ≤ ⌊(255 : ℚ)⌋ := Int.floor_le_floor h1
    _ = 255 := by norm_num

theorem letter_pixels_length (letter : List (List ℤ)) (h8 : letter.length = 8)
    (hrow : ∀ row ∈ letter, row.length = 8) : (letter_pixels letter).length = 64 := by
  unfold letter_pixels
  rw [List.length_flatMap]
  have hmap : List.map
      (List.length ∘ fun row => List.map (fun pixel => List.replicate 3 (128 * pixel)) row)
      letter = List.map (Function.const (List ℤ) 8) letter :=
    List.map_congr_left (fun r hr => by
      simp [Function.comp, Function.const, hrow r hr])
  rw [hmap, List.map_const, h8]
  decide

theorem snd_mem_of_mem_enum {α : Type _} {l : List α} {i : ℕ} {a : α}
    (h : (i, a) ∈ l.enum) : a ∈ l := by
  obtain ⟨-, hi, hx⟩ :=
    List.mem_enumFrom (show (i, a) ∈ List.enumFrom 0 l from h)
  rw [hx]
  exact List.getElem_mem _

theorem min_increment_eq : min_increment = 1 / 2000 := by
  rw [min_increment, increments]
  simp [List.min?, initial, speed]
  rw [min_def, min_def]
  norm_num

theorem power_off_time_eq : power_off_time = 500 := by
  rw [power_off_time, min_increment_eq, initial, speed]
  rw [pyInt_of_nonneg (by norm_num)]
  norm_num

theorem fade_trace_length (n : ℕ) (rgb : List ℚ) : (fade_trace n rgb).length = n := by
  induction n generalizing rgb with
  | zero => rfl
  | succ n ih => simp [fade_trace, ih]

theorem fade_trace_all_set (n : ℕ) (rgb : List ℚ) :
    ∀ op ∈ fade_trace n rgb, ∃ f, op = DeviceOp.set_pixels f := by
  induction n generalizing rgb with
  | zero => intro op h; simp [fade_trace] at h
  | succ n ih =>
    intro op h
    rw [fade_trace] at h
    rcases List.mem_cons.mp h with rfl | h
    · exact ⟨_, rfl⟩
    · exact ih _ op h

theorem minutes_brightness_lt_inv15 (mins x : ℕ)
    (h : minutes_brightness (mins : ℚ) (x : ℚ) < 1 / 15) :
    minutes_brightness (mins : ℚ) (x : ℚ) = 0 := by
  unfold minutes_brightness at h ⊢
  dsimp only at h ⊢
  split_ifs at h ⊢ with h1 h2
  · rfl
  · rw [pyFMod_one] at h ⊢
    set q : ℚ := ((mins : ℚ) / 60) * 8 with hq
    have hfl : (0 : ℚ) ≤ q - ⌊q⌋ := by
      have := Int.floor_le q
      linarith
    have hcast : ((2 * (mins : ℤ) - 15 * ⌊q⌋ : ℤ) : ℚ) = 15 * (q - ⌊q⌋) := by
      push_cast
      rw [hq]
      ring
    have h0k : (0 : ℤ) ≤ 2 * (mins : ℤ) - 15 * ⌊q⌋ := by
      have hc : (0 : ℚ) ≤ ((2 * (mins : ℤ) - 15 * ⌊q⌋ : ℤ) : ℚ) := by
        rw [hcast]
        linarith
      exact_mod_cast hc
    have h1k : (2 * (mins : ℤ) - 15 * ⌊q⌋ : ℤ) < 1 := by
      have hc : ((2 * (mins : ℤ) - 15 * ⌊q⌋ : ℤ) : ℚ) < 1 := by
        rw [hcast]
        linarith
      exact_mod_cast hc
    have hk0 : (2 * (mins : ℤ) - 15 * ⌊q⌋ : ℤ) = 0 := by omega
    have h15 : (15 : ℚ) * (q - ⌊q⌋) = 0 := by
      rw [← hcast, hk0]
      norm_num
    linarith
  · norm_num at h

/- ### Claim theorems -/

/-- C2: for every hour in 0..23, `time_letter hour` is one of the labels
`'0'..'9','a','b','c'`; hour 12 yields `"c"` and every other hour yields the
lowercase hexadecimal digit of `hour % 12` (hour 0 yields `"0"`, hour 13
yields `"1"`, hour 23 yields `"b"`). -/
theorem time_letter_claim (hour : ℕ) (h : hour ≤ 23) :
    time_letter hour ∈
      ["0", "1", "2", "3", "4", "5", "6", "7", "8", "9", "a", "b", "c"] ∧
    (hour = 12 → time_letter hour = "c") ∧
    (hour ≠ 12 → time_letter hour = String.singleton (Nat.digitChar (hour % 12))) ∧
    time_letter 0 = "0" ∧ time_letter 13 = "1" ∧ time_letter 23 = "b" := by
  have key : ∀ h' < 24,
      time_letter h' ∈
        ["0", "1", "2", "3", "4", "5", "6", "7", "8", "9", "a", "b", "c"] ∧
      (h' = 12 → time_letter h' = "c") ∧
      (h' ≠ 12 → time_letter h' = String.singleton (Nat.digitChar (h' % 12))) := by
    decide
  obtain ⟨h1, h2, h3⟩ := key hour (by omega)
  exact ⟨h1, h2, h3, by decide, by decide, by decide⟩

/-- Witness for C2 at hour 13. -/
theorem time_letter_claim_witness :
    (13 ≤ 23) ∧
    (time_letter 13 ∈
      ["0", "1", "2", "3", "4", "5", "6", "7", "8", "9", "a", "b", "c"] ∧
    (13 = 12 → time_letter 13 = "c") ∧
    (13 ≠ 12 → time_letter 13 = String.singleton (Nat.digitChar (13 % 12))) ∧
    time_letter 0 = "0" ∧ time_letter 13 = "1" ∧ time_letter 23 = "b") :=
  ⟨by decide, time_letter_claim 13 (by decide)⟩

/-- C3: for every minute in 0..59 and x in 0..7, with fillPosition
`(mins/60)*8`, `minutes_brightness` returns 0 when `fillPosition - x < 0`,
the fractional part of fillPosition when `0 ≤ fillPosition - x < 1`, and 1
when `fillPosition - x ≥ 1`; in particular `minutes_brightness 0 x = 0`,
`minutes_brightness 30 3 = 1` and `minutes_brightness 30 4 = 0`. -/
theorem minutes_brightness_claim (mins x : ℕ) (hm : mins ≤ 59) (hx : x ≤ 7) :
    (((mins : ℚ) / 60) * 8 - x < 0 → minutes_brightness mins x = 0) ∧
    (0 ≤ ((mins : ℚ) / 60) * 8 - x → ((mins : ℚ) / 60) * 8 - x < 1 →
      minutes_brightness mins x =
        ((mins : ℚ) / 60) * 8 - ⌊((mins : ℚ) / 60) * 8⌋) ∧
    (1 ≤ ((mins : ℚ) / 60) * 8 - x → minutes_brightness mins x = 1) ∧
    minutes_brightness 0 (x : ℚ) = 0 ∧
    minutes_brightness 30 3 = 1 ∧ minutes_brightness 30 4 = 0 := by
  refine ⟨?_, ?_, ?_, ?_, ?_, ?_⟩
  · intro hlt
    unfold minutes_brightness
    dsimp only
    rw [if_pos hlt]
  · intro hge hlt1
    unfold minutes_brightness
    dsimp only
    rw [if_neg (by linarith), if_pos hlt1, pyFMod_one]
  · intro hge1
    unfold minutes_brightness
    dsimp only
    rw [if_neg (by linarith), if_neg (by linarith)]
  · rcases Nat.eq_zero_or_pos x with h0 | h0
    · subst h0
      norm_num [minutes_brightness, pyFMod]
    · have hx1 : (1 : ℚ) ≤ (x : ℚ) := by exact_mod_cast h0
      unfold minutes_brightness
      dsimp only
      rw [if_pos (by norm_num; linarith)]
  · norm_num [minutes_brightness, pyFMod]
  · norm_num [minutes_brightness, pyFMod]

/-- Witness for C3 at minute 30, column 4. -/
theorem minutes_brightness_claim_witness :
    ((30 ≤ 59) ∧ (4 ≤ 7)) ∧
    ((((30 : ℕ) : ℚ) / 60) * 8 - (4 : ℕ) < 0 →
        minutes_brightness (30 : ℕ) (4 : ℕ) = 0) ∧
    (0 ≤ (((30 : ℕ) : ℚ) / 60) * 8 - (4 : ℕ) →
        (((30 : ℕ) : ℚ) / 60) * 8 - (4 : ℕ) < 1 →
      minutes_brightness (30 : ℕ) (4 : ℕ) =
        (((30 : ℕ) : ℚ) / 60) * 8 - ⌊(((30 : ℕ) : ℚ) / 60) * 8⌋) ∧
    (1 ≤ (((30 : ℕ) : ℚ) / 60) * 8 - (4 : ℕ) →
        minutes_brightness (30 : ℕ) (4 : ℕ) = 1) ∧
    minutes_brightness 0 ((4 : ℕ) : ℚ) = 0 ∧
    minutes_brightness 30 3 = 1 ∧ minutes_brightness 30 4 = 0 :=
  ⟨⟨by decide, by decide⟩, minutes_brightness_claim 30 4 (by decide) (by decide)⟩

/-- C4: a glyph pixel of source intensity 1 (half-intensity letter pixel
`[128*1]*3`) renders as `[128,128,128]` regardless of position and time; a
glyph pixel of source intensity 0 renders as
`dim (time_of_day_color hours mins) (minutes_brightness mins x)`, whose
channels scale `[10,0,100]` by the brightness factor and truncate to an
integer (floor, since the channels are nonnegative). -/
theorem letter_pixel_col_claim (x y : ℕ) (hours : String) (mins : ℕ)
    (hx : x ≤ 7) (hy : y ≤ 7) (hm : mins ≤ 59) :
    letter_pixel_col x y (List.replicate 3 (128 * 1)) hours mins = [128, 128, 128] ∧
    letter_pixel_col x y (List.replicate 3 (128 * 0)) hours mins =
      dim (time_of_day_color hours mins) (minutes_brightness mins (x : ℚ)) ∧
    dim (time_of_day_color hours mins) (minutes_brightness mins (x : ℚ)) =
      [⌊(10 : ℚ) * minutes_brightness mins (x : ℚ)⌋,
       ⌊(0 : ℚ) * minutes_brightness mins (x : ℚ)⌋,
       ⌊(100 : ℚ) * minutes_brightness mins (x : ℚ)⌋] := by
  have hb := minutes_brightness_nonneg (mins : ℚ) (x : ℚ)
  refine ⟨?_, ?_, ?_⟩
  · show bg_if_blank [128 * 1, 128 * 1, 128 * 1] _ = [128, 128, 128]
    rw [bg_if_blank, if_pos (by decide)]
    norm_num
  · show bg_if_blank [128 * 0, 128 * 0, 128 * 0] _ = _
    rw [bg_if_blank, if_neg (by decide)]
  · rw [time_of_day_color_eq,
        dim_eval 10 0 100 _ hb (by decide) (by decide) (by decide)]
    norm_num

/-- C1: for every 8x8 binary glyph, hour label, and minute in 0..59, the
frame assembled by the main loop (`letter_pixel_col` at x = i % 8, y = i / 8
over the half-intensity letter pixels, in row-major order) has exactly 64
pixels, each an RGB triple whose channels all lie in [0, 255]. -/
theorem frame_pixels_claim (letter : List (List ℤ)) (hours : String) (mins : ℕ)
    (h8 : letter.length = 8) (hrow : ∀ row ∈ letter, row.length = 8)
    (hbin : ∀ row ∈ letter, ∀ v ∈ row, v = 0 ∨ v = 1) (hm : mins ≤ 59) :
    (frame_pixels letter hours mins).length = 64 ∧
    ∀ px ∈ frame_pixels letter hours mins,
      px.length = 3 ∧ ∀ ch ∈ px, 0 ≤ ch ∧ ch ≤ 255 := by
  constructor
  · unfold frame_pixels
    rw [List.length_map, List.enum_length]
    exact letter_pixels_length letter h8 hrow
  · intro px hpx
    unfold frame_pixels at hpx
    rw [List.mem_map] at hpx
    obtain ⟨⟨i, p⟩, hip, rfl⟩ := hpx
    dsimp only
    have hp : p ∈ letter_pixels letter := snd_mem_of_mem_enum hip
    unfold letter_pixels at hp
    rw [List.mem_flatMap] at hp
    obtain ⟨row, hrowmem, hp⟩ := hp
    rw [List.mem_map] at hp
    obtain ⟨v, hv, rfl⟩ := hp
    rcases hbin row hrowmem v hv with rfl | rfl
    · have heq : letter_pixel_col (i % 8) (i / 8) (List.replicate 3 (128 * 0)) hours mins
          = dim [10, 0, 100] (minutes_brightness (mins : ℚ) ((i % 8 : ℕ) : ℚ)) := by
        unfold letter_pixel_col bg_if_blank
        rw [time_of_day_color_eq, if_neg (by decide)]
      rw [heq]
      have hb0 := minutes_brightness_nonneg (mins : ℚ) ((i % 8 : ℕ) : ℚ)
      have hb1 := minutes_brightness_le_one (mins : ℚ) ((i % 8 : ℕ) : ℚ)
      rw [dim_eval 10 0 100 _ hb0 (by decide) (by decide) (by decide)]
      refine ⟨rfl, ?_⟩
      intro ch hch
      have b0 := floor_channel_bounds ((10 : ℤ) : ℚ) _ (by norm_num) (by norm_num) hb0 hb1
      have b1 := floor_channel_bounds ((0 : ℤ) : ℚ) _ (by norm_num) (by norm_num) hb0 hb1
      have b2 := floor_channel_bounds ((100 : ℤ) : ℚ) _ (by norm_num) (by norm_num) hb0 hb1
      simp only [List.mem_cons, List.not_mem_nil, or_false] at hch
      rcases hch with rfl | rfl | rfl
      · exact b0
      · exact b1
      · exact b2
    · have heq : letter_pixel_col (i % 8) (i / 8) (List.replicate 3 (128 * 1)) hours mins
          = [128, 128, 128] := by
        unfold letter_pixel_col bg_if_blank
        rw [if_pos (by decide)]
        decide
      rw [heq]
      refine ⟨rfl, ?_⟩
      intro ch hch
      simp only [List.mem_cons, List.not_mem_nil, or_false] at hch
      rcases hch with rfl | rfl | rfl <;> exact ⟨by decide, by decide⟩

/-- Witness for C1: a concrete 8x8 binary glyph (the digit shape is
irrelevant), label "2", minute 30. -/
theorem frame_pixels_claim_witness :
    (([[0, 1, 1, 1, 1, 0, 0, 0],
       [0, 1, 0, 0, 1, 0, 0, 0],
       [0, 0, 0, 0, 1, 0, 0, 0],
       [0, 0, 1, 1, 0, 0, 0, 0],
       [0, 1, 0, 0, 0, 0, 0, 0],
       [0, 1, 0, 0, 0, 0, 0, 0],
       [0, 1, 1, 1, 1, 0, 0, 0],
       [0, 0, 0, 0, 0, 0, 0, 0]] : List (List ℤ)).length = 8 ∧
     (∀ row ∈ ([[0, 1, 1, 1, 1, 0, 0, 0],
       [0, 1, 0, 0, 1, 0, 0, 0],
       [0, 0, 0, 0, 1, 0, 0, 0],
       [0, 0, 1, 1, 0, 0, 0, 0],
       [0, 1, 0, 0, 0, 0, 0, 0],
       [0, 1, 0, 0, 0, 0, 0, 0],
       [0, 1, 1, 1, 1, 0, 0, 0],
       [0, 0, 0, 0, 0, 0, 0, 0]] : List (List ℤ)), row.length = 8) ∧
     (∀ row ∈ ([[0, 1, 1, 1, 1, 0, 0, 0],
       [0, 1, 0, 0, 1, 0, 0, 0],
       [0, 0, 0, 0, 1, 0, 0, 0],
       [0, 0, 1, 1, 0, 0, 0, 0],
       [0, 1, 0, 0, 0, 0, 0, 0],
       [0, 1, 0, 0, 0, 0, 0, 0],
       [0, 1, 1, 1, 1, 0, 0, 0],
       [0, 0, 0, 0, 0, 0, 0, 0]] : List (List ℤ)), ∀ v ∈ row, v = 0 ∨ v = 1) ∧
     (30 ≤ 59)) ∧
    ((frame_pixels [[0, 1, 1, 1, 1, 0, 0, 0],
       [0, 1, 0, 0, 1, 0, 0, 0],
       [0, 0, 0, 0, 1, 0, 0, 0],
       [0, 0, 1, 1, 0, 0, 0, 0],
       [0, 1, 0, 0, 0, 0, 0, 0],
       [0, 1, 0, 0, 0, 0, 0, 0],
       [0, 1, 1, 1, 1, 0, 0, 0],
       [0, 0, 0, 0, 0, 0, 0, 0]] "2" (30 : ℕ)).length = 64 ∧
    ∀ px ∈ frame_pixels [[0, 1, 1, 1, 1, 0, 0, 0],
       [0, 1, 0, 0, 1, 0, 0, 0],
       [0, 0, 0, 0, 1, 0, 0, 0],
       [0, 0, 1, 1, 0, 0, 0, 0],
       [0, 1, 0, 0, 0, 0, 0, 0],
       [0, 1, 0, 0, 0, 0, 0, 0],
       [0, 1, 1, 1, 1, 0, 0, 0],
       [0, 0, 0, 0, 0, 0, 0, 0]] "2" (30 : ℕ),
      px.length = 3 ∧ ∀ ch ∈ px, 0 ≤ ch ∧ ch ≤ 255) :=
  ⟨⟨by decide, by decide, by decide, by decide⟩,
    frame_pixels_claim _ "2" 30 (by decide) (by decide) (by decide) (by decide)⟩

/-- C5: for every 8x8 grid g and every integer n (negative included),
`rotate g n` equals `rotate g (n % 4)`; `rotate g 0` and `rotate g 4` have
identical content to g, and `rotate (rotate g 1) 3 = g` (one anti-clockwise
quarter turn undone by three more). -/
theorem rotate_claim {α : Type _} (g : List (List α)) (n : ℤ)
    (h8 : g.length = 8) (hrow : ∀ r ∈ g, r.length = 8) :
    rotate g n = rotate g (n % 4) ∧ rotate g 0 = g ∧ rotate g 4 = g ∧
    rotate (rotate g 1) 3 = g := by
  have h0 : ((0 : ℤ) % 4).toNat = 0 := by decide
  have h4 : ((4 : ℤ) % 4).toNat = 0 := by decide
  have h1 : ((1 : ℤ) % 4).toNat = 1 := by decide
  have h3 : ((3 : ℤ) % 4).toNat = 3 := by decide
  refine ⟨?_, ?_, ?_, ?_⟩
  · unfold rotate
    rw [Int.emod_emod_of_dvd _ (dvd_refl 4)]
  · unfold rotate
    rw [h0]
    rfl
  · unfold rotate
    rw [h4]
    rfl
  · unfold rotate
    rw [h1, h3]
    exact quarter_rotation_four g h8 hrow

/-- Witness for C5: a concrete 8x8 grid of naturals and the negative turn
count n = -5. -/
theorem rotate_claim_witness :
    (([[0, 1, 2, 3, 4, 5, 6, 7],
       [10, 11, 12, 13, 14, 15, 16, 17],
       [20, 21, 22, 23, 24, 25, 26, 27],
       [30, 31, 32, 33, 34, 35, 36, 37],
       [40, 41, 42, 43, 44, 45, 46, 47],
       [50, 51, 52, 53, 54, 55, 56, 57],
       [60, 61, 62, 63, 64, 65, 66, 67],
       [70, 71, 72, 73, 74, 75, 76, 77]] : List (List ℕ)).length = 8 ∧
     (∀ r ∈ ([[0, 1, 2, 3, 4, 5, 6, 7],
       [10, 11, 12, 13, 14, 15, 16, 17],
       [20, 21, 22, 23, 24, 25, 26, 27],
       [30, 31, 32, 33, 34, 35, 36, 37],
       [40, 41, 42, 43, 44, 45, 46, 47],
       [50, 51, 52, 53, 54, 55, 56, 57],
       [60, 61, 62, 63, 64, 65, 66, 67],
       [70, 71, 72, 73, 74, 75, 76, 77]] : List (List ℕ)), r.length = 8)) ∧
    (rotate ([[0, 1, 2, 3, 4, 5, 6, 7],
       [10, 11, 12, 13, 14, 15, 16, 17],
       [20, 21, 22, 23, 24, 25, 26, 27],
       [30, 31, 32, 33, 34, 35, 36, 37],
       [40, 41, 42, 43, 44, 45, 46, 47],
       [50, 51, 52, 53, 54, 55, 56, 57],
       [60, 61, 62, 63, 64, 65, 66, 67],
       [70, 71, 72, 73, 74, 75, 76, 77]] : List (List ℕ)) (-5) =
       rotate ([[0, 1, 2, 3, 4, 5, 6, 7],
       [10, 11, 12, 13, 14, 15, 16, 17],
       [20, 21, 22, 23, 24, 25, 26, 27],
       [30, 31, 32, 33, 34, 35, 36, 37],
       [40, 41, 42, 43, 44, 45, 46, 47],
       [50, 51, 52, 53, 54, 55, 56, 57],
       [60, 61, 62, 63, 64, 65, 66, 67],
       [70, 71, 72, 73, 74, 75, 76, 77]] : List (List ℕ)) ((-5) % 4) ∧
     rotate ([[0, 1, 2, 3, 4, 5, 6, 7],
       [10, 11, 12, 13, 14, 15, 16, 17],
       [20, 21, 22, 23, 24, 25, 26, 27],
       [30, 31, 32, 33, 34, 35, 36, 37],
       [40, 41, 42, 43, 44, 45, 46, 47],
       [50, 51, 52, 53, 54, 55, 56, 57],
       [60, 61, 62, 63, 64, 65, 66, 67],
       [70, 71, 72, 73, 74, 75, 76, 77]] : List (List ℕ)) 0 =
       [[0, 1, 2, 3, 4, 5, 6, 7],
       [10, 11, 12, 13, 14, 15, 16, 17],
       [20, 21, 22, 23, 24, 25, 26, 27],
       [30, 31, 32, 33, 34, 35, 36, 37],
       [40, 41, 42, 43, 44, 45, 46, 47],
       [50, 51, 52, 53, 54, 55, 56, 57],
       [60, 61, 62, 63, 64, 65, 66, 67],
       [70, 71, 72, 73, 74, 75, 76, 77]] ∧
     rotate ([[0, 1, 2, 3, 4, 5, 6, 7],
       [10, 11, 12, 13, 14, 15, 16, 17],
       [20, 21, 22, 23, 24, 25, 26, 27],
       [30, 31, 32, 33, 34, 35, 36, 37],
       [40, 41, 42, 43, 44, 45, 46, 47],
       [50, 51, 52, 53, 54, 55, 56, 57],
       [60, 61, 62, 63, 64, 65, 66, 67],
       [70, 71, 72, 73, 74, 75, 76, 77]] : List (List ℕ)) 4 =
       [[0, 1, 2, 3, 4, 5, 6, 7],
       [10, 11, 12, 13, 14, 15, 16, 17],
       [20, 21, 22, 23, 24, 25, 26, 27],
       [30, 31, 32, 33, 34, 35, 36, 37],
       [40, 41, 42, 43, 44, 45, 46, 47],
       [50, 51, 52, 53, 54, 55, 56, 57],
       [60, 61, 62, 63, 64, 65, 66, 67],
       [70, 71, 72, 73, 74, 75, 76, 77]] ∧
     rotate (rotate ([[0, 1, 2, 3, 4, 5, 6, 7],
       [10, 11, 12, 13, 14, 15, 16, 17],
       [20, 21, 22, 23, 24, 25, 26, 27],
       [30, 31, 32, 33, 34, 35, 36, 37],
       [40, 41, 42, 43, 44, 45, 46, 47],
       [50, 51, 52, 53, 54, 55, 56, 57],
       [60, 61, 62, 63, 64, 65, 66, 67],
       [70, 71, 72, 73, 74, 75, 76, 77]] : List (List ℕ)) 1) 3 =
       [[0, 1, 2, 3, 4, 5, 6, 7],
       [10, 11, 12, 13, 14, 15, 16, 17],
       [20, 21, 22, 23, 24, 25, 26, 27],
       [30, 31, 32, 33, 34, 35, 36, 37],
       [40, 41, 42, 43, 44, 45, 46, 47],
       [50, 51, 52, 53, 54, 55, 56, 57],
       [60, 61, 62, 63, 64, 65, 66, 67],
       [70, 71, 72, 73, 74, 75, 76, 77]]) :=
  ⟨⟨by decide, by decide⟩,
    rotate_claim ([[0, 1, 2, 3, 4, 5, 6, 7],
       [10, 11, 12, 13, 14, 15, 16, 17],
       [20, 21, 22, 23, 24, 25, 26, 27],
       [30, 31, 32, 33, 34, 35, 36, 37],
       [40, 41, 42, 43, 44, 45, 46, 47],
       [50, 51, 52, 53, 54, 55, 56, 57],
       [60, 61, 62, 63, 64, 65, 66, 67],
       [70, 71, 72, 73, 74, 75, 76, 77]] : List (List ℕ)) (-5)
      (by decide) (by decide)⟩

/-- C6 counterexample: a glyph row of width 4 (not 5) is loaded without any
error; `load_letters` succeeds and returns it padded to width 7. -/
theorem load_letters_counterexample :
    (([1, 1, 1, 1] : List ℤ)).length = 4 ∧
    load_letters (some [("x", [[1, 1, 1, 1]])]) = some [("x", [[0, 1, 1, 1, 1, 0, 0]])] :=
  ⟨rfl, rfl⟩

/-- C6 (amended): loading fails when the resource is missing or malformed
(parse result `none`), but no row-width validation is performed: every
successfully parsed dictionary is returned, each row padded as
`[0] ++ row ++ [0, 0]` (three columns longer), whatever its width. -/
theorem load_letters_amended (d : List (String × List (List ℤ))) :
    load_letters none = none ∧
    ∃ out, load_letters (some d) = some out ∧
      ∀ pr ∈ out, ∃ qr ∈ d, pr.1 = qr.1 ∧ pr.2 = qr.2.map pad_row ∧
        ∀ row ∈ qr.2, (pad_row row).length = row.length + 3 := by
  refine ⟨rfl, _, rfl, ?_⟩
  intro pr hpr
  obtain ⟨q, hq, rfl⟩ := List.mem_map.mp hpr
  exact ⟨q, hq, rfl, rfl, fun row _ => by simp [pad_row]⟩

/-- Witness for C6 (amended) at a concrete one-glyph dictionary. -/
theorem load_letters_amended_witness :
    load_letters none = none ∧
    ∃ out, load_letters (some [("c", [[1, 0, 1, 0, 1]])]) = some out ∧
      ∀ pr ∈ out, ∃ qr ∈ [("c", [[(1 : ℤ), 0, 1, 0, 1]])], pr.1 = qr.1 ∧
        pr.2 = qr.2.map pad_row ∧
        ∀ row ∈ qr.2, (pad_row row).length = row.length + 3 :=
  load_letters_amended [("c", [[1, 0, 1, 0, 1]])]

/-- C7: every loaded 5-column row `[c0, c1, c2, c3, c4]` is padded to the
8-column row `[0, c0, c1, c2, c3, c4, 0, 0]`, so every glyph whose source
rows all have width 5 has rows exactly 8 columns wide in the returned
mapping. -/
theorem pad_row_claim (d out : List (String × List (List ℤ)))
    (hout : load_letters (some d) = some out)
    (hw : ∀ p ∈ d, ∀ row ∈ p.2, row.length = 5) :
    (∀ p ∈ d, ∀ row ∈ p.2, ∃ c0 c1 c2 c3 c4, row = [c0, c1, c2, c3, c4] ∧
      pad_row row = [0, c0, c1, c2, c3, c4, 0, 0]) ∧
    ∀ pr ∈ out, ∀ row ∈ pr.2, row.length = 8 := by
  constructor
  · intro p hp row hrow
    obtain ⟨c0, row, rfl⟩ := List.exists_of_length_succ row
      (by rw [hw p hp row hrow])
    have h4 : row.length = 4 := by
      have := hw p hp _ hrow
      simpa using this
    obtain ⟨c1, row, rfl⟩ := List.exists_of_length_succ row (by rw [h4])
    have h3 : row.length = 3 := by simpa using h4
    obtain ⟨c2, row, rfl⟩ := List.exists_of_length_succ row (by rw [h3])
    have h2 : row.length = 2 := by simpa using h3
    obtain ⟨c3, row, rfl⟩ := List.exists_of_length_succ row (by rw [h2])
    have h1 : row.length = 1 := by simpa using h2
    obtain ⟨c4, row, rfl⟩ := List.exists_of_length_succ row (by rw [h1])
    have h0 : row.length = 0 := by simpa using h1
    rw [List.length_eq_zero] at h0
    subst h0
    exact ⟨c0, c1, c2, c3, c4, rfl, rfl⟩
  · intro pr hpr row hrow
    have hout' : out = d.map (fun p => (p.1, p.2.map pad_row)) :=
      (Option.some.inj hout).symm
    subst hout'
    obtain ⟨q, hq, rfl⟩ := List.mem_map.mp hpr
    obtain ⟨r, hr, rfl⟩ := List.mem_map.mp hrow
    have := hw q hq r hr
    simp [pad_row, this]

/-- Witness for C7 at a concrete one-glyph dictionary with a width-5 row. -/
theorem pad_row_claim_witness :
    (load_letters (some [("c", [[1, 0, 1, 0, 1]])]) =
      some [("c", [[0, 1, 0, 1, 0, 1, 0, 0]])] ∧
     (∀ p ∈ [("c", [[(1 : ℤ), 0, 1, 0, 1]])], ∀ row ∈ p.2, row.length = 5)) ∧
    ((∀ p ∈ [("c", [[(1 : ℤ), 0, 1, 0, 1]])], ∀ row ∈ p.2,
        ∃ c0 c1 c2 c3 c4, row = [c0, c1, c2, c3, c4] ∧
          pad_row row = [0, c0, c1, c2, c3, c4, 0, 0]) ∧
      ∀ pr ∈ [("c", [[(0 : ℤ), 1, 0, 1, 0, 1, 0, 0]])], ∀ row ∈ pr.2, row.length = 8) :=
  ⟨⟨rfl, by decide⟩,
    pad_row_claim [("c", [[1, 0, 1, 0, 1]])] [("c", [[0, 1, 0, 1, 0, 1, 0, 0]])]
      rfl (by decide)⟩

/-- C9 counterexample: the shutdown fade's frame count `power_off_time` is
500, which does not lie in the interval [60, 70]. -/
theorem power_off_time_counterexample :
    power_off_time = 500 ∧ ¬(60 ≤ power_off_time ∧ power_off_time ≤ 70) :=
  ⟨power_off_time_eq, by rw [power_off_time_eq]; decide⟩

/-- C9 (amended): `power_off_time` is exactly 500 (derived from the initial
brightness 0.5, speed 2, and the smallest per-channel decrement rate), and
the fastest-fading channel (the one with the largest decrement rate, 0.001)
reaches exactly zero over those 500 frames. -/
theorem power_off_time_amended :
    power_off_time = 500 ∧
    ∃ inc ∈ increments, (∀ j ∈ increments, j ≤ inc) ∧
      initial - (power_off_time : ℚ) * inc = 0 := by
  refine ⟨power_off_time_eq, speed * initial / 1000, by simp [increments], ?_, ?_⟩
  · intro j hj
    rw [increments] at hj
    simp only [List.mem_cons, List.not_mem_nil, or_false] at hj
    rcases hj with rfl | rfl | rfl <;> norm_num [speed, initial]
  · rw [power_off_time_eq, speed, initial]
    norm_num

/-- C10: `clear_and_exit` issues a bounded device trace: `power_off_time`
fade frames plus one held fully-dimmed frame (all `set_pixels` calls), after
which exactly one `clear` is issued as the final device operation, and the
process terminates with exit code 0; no device operation follows the
`clear`. -/
theorem clear_and_exit_claim :
    ∃ pre, clear_and_exit.1 = pre ++ [DeviceOp.clear] ∧
      pre.length = power_off_time.toNat + 1 ∧
      (∀ op ∈ pre, ∃ f, op = DeviceOp.set_pixels f) ∧
      clear_and_exit.2 = 0 := by
  refine ⟨fade_trace power_off_time.toNat (List.replicate 3 initial) ++
    [DeviceOp.set_pixels final_frame], ?_, ?_, ?_, rfl⟩
  · show fade_trace _ _ ++ [DeviceOp.set_pixels final_frame, DeviceOp.clear] = _
    rw [List.append_assoc]
    rfl
  · rw [List.length_append, fade_trace_length]
    rfl
  · intro op hop
    rcases List.mem_append.mp hop with h | h
    · exact fade_trace_all_set _ _ op h
    · rw [List.mem_singleton] at h
      subst h
      exact ⟨_, rfl⟩

/-- C8 counterexample: at minute 0 (column 0, any hour label) the unlit
background colour is exactly `[0, 0, 0]`, so it does reach black. -/
theorem background_black_counterexample :
    dim (time_of_day_color "0" 0) (minutes_brightness 0 0) = [0, 0, 0] := by
  have hb : minutes_brightness 0 0 = 0 := by norm_num [minutes_brightness, pyFMod]
  rw [time_of_day_color_eq, hb,
    dim_eval 10 0 100 0 le_rfl (by decide) (by decide) (by decide)]
  norm_num

/-- C8 (amended): the unlit background colour equals `[0, 0, 0]` exactly when
`minutes_brightness` is 0, i.e. for every column the fill has not reached
(in particular for every column at minute 0): the premise that it never
reaches black is false, though lit pixels ([128,128,128]) are still never
confused with it. -/
theorem background_black_amended (hours : String) (mins x : ℕ)
    (hm : mins ≤ 59) (hx : x ≤ 7) :
    dim (time_of_day_color hours (mins : ℚ)) (minutes_brightness (mins : ℚ) (x : ℚ)) =
        [0, 0, 0] ↔
      minutes_brightness (mins : ℚ) (x : ℚ) = 0 := by
  have hb0 := minutes_brightness_nonneg (mins : ℚ) (x : ℚ)
  have hb1 := minutes_brightness_le_one (mins : ℚ) (x : ℚ)
  rw [time_of_day_color_eq, dim_eval 10 0 100 _ hb0 (by decide) (by decide) (by decide)]
  constructor
  · intro h
    simp only [List.cons.injEq, and_true] at h
    obtain ⟨-, -, h100⟩ := h
    have hlt : ((100 : ℤ) : ℚ) * minutes_brightness (mins : ℚ) (x : ℚ) < 1 :=
      (Set.mem_Ico.mp (Int.floor_eq_zero_iff.mp h100)).2
    apply minutes_brightness_lt_inv15 mins x
    push_cast at hlt
    linarith
  · intro h
    rw [h]
    norm_num

/-- Witness for C8 (amended) at label "0", minute 0, column 5. -/
theorem background_black_amended_witness :
    ((0 ≤ 59) ∧ (5 ≤ 7)) ∧
    (dim (time_of_day_color "0" ((0 : ℕ) : ℚ))
        (minutes_brightness ((0 : ℕ) : ℚ) ((5 : ℕ) : ℚ)) = [0, 0, 0] ↔
      minutes_brightness ((0 : ℕ) : ℚ) ((5 : ℕ) : ℚ) = 0) :=
  ⟨⟨by decide, by decide⟩, background_black_amended "0" 0 5 (by decide) (by decide)⟩

/-- Witness for C4 at (x, y) = (3, 2), label "5", minute 45. -/
theorem letter_pixel_col_claim_witness :
    ((3 ≤ 7) ∧ (2 ≤ 7) ∧ (45 ≤ 59)) ∧
    (letter_pixel_col 3 2 (List.replicate 3 (128 * 1)) "5" (45 : ℕ) = [128, 128, 128] ∧
    letter_pixel_col 3 2 (List.replicate 3 (128 * 0)) "5" (45 : ℕ) =
      dim (time_of_day_color "5" (45 : ℕ)) (minutes_brightness (45 : ℕ) ((3 : ℕ) : ℚ)) ∧
    dim (time_of_day_color "5" (45 : ℕ)) (minutes_brightness (45 : ℕ) ((3 : ℕ) : ℚ)) =
      [⌊(10 : ℚ) * minutes_brightness (45 : ℕ) ((3 : ℕ) : ℚ)⌋,
       ⌊(0 : ℚ) * minutes_brightness (45 : ℕ) ((3 : ℕ) : ℚ)⌋,
       ⌊(100 : ℚ) * minutes_brightness (45 : ℕ) ((3 : ℕ) : ℚ)⌋]) :=
  ⟨⟨by decide, by decide, by decide⟩,
    letter_pixel_col_claim 3 2 "5" 45 (by decide) (by decide) (by decide)⟩

end Clock
